import Mathlib

deriving instance DecidableEq for Except

/-
Shallow embedding of the ultramultiplexer repository (src/main.go).
The program exposes HTTP/1.1 and gRPC on a single TCP listener via cmux,
with a startup orchestrator (startMux, waitForServerReady, initGRPCClient)
and a Stop teardown. Pure request handling is embedded as Lean functions;
the stateful orchestration is embedded as explicit event traces and state
transitions.
-/

namespace UltraMux

/-! ## Protobuf messages (pb package) -/

/-- Embeds pb.HelloRequest. -/
structure HelloRequest where
  name : String
deriving DecidableEq, Repr

/-- Embeds pb.HelloReply. -/
structure HelloReply where
  message : String
deriving DecidableEq, Repr

/-- Embeds pb.DataRequest. -/
structure DataRequest where
  data : String
deriving DecidableEq, Repr

/-- Embeds pb.DataReply. -/
structure DataReply where
  processed : String
deriving DecidableEq, Repr

/-! ## gRPC service methods (src/main.go lines 131-139) -/

/-- Embeds GRPCServer.SayHello: builds "Hello %s from Ultra Multiplexer!" from
req.Name and returns it with a nil error (modelled as Except.ok). -/
def SayHello (req : HelloRequest) : Except String HelloReply :=
  Except.ok { message := "Hello " ++ req.name ++ " from Ultra Multiplexer!" }

/-- Embeds Go strings.ToUpper as applied in ProcessData: per-character upper-casing
(Char.toUpper models unicode.ToUpper; it agrees on ASCII input). -/
def stringsToUpper (s : String) : String :=
  s.map Char.toUpper

/-- Embeds GRPCServer.ProcessData: uppercases req.Data and returns it with a nil
error (modelled as Except.ok). -/
def ProcessData (req : DataRequest) : Except String DataReply :=
  Except.ok { processed := stringsToUpper req.data }

/-! ## JSON encoding as performed by json.NewEncoder(w).Encode
for a single-key map of strings. Go's encoder HTML-escapes by default and
appends a newline. -/

/-- Hexadecimal digit character, lower case, as emitted by Go's JSON encoder. -/
def hexDigit (n : Nat) : Char :=
  if n < 10 then Char.ofNat (48 + n) else Char.ofNat (87 + n)

/-- Escaping of one character following Go encoding/json defaults
(SetEscapeHTML true): quotes, backslash, control characters and the HTML
characters are escaped, everything else is passed through. -/
def jsonEscapeChar (c : Char) : String :=
  if c = '"' then "\\\""
  else if c = '\\' then "\\\\"
  else if c = '\x0a' then "\\n"
  else if c = '\x0d' then "\\r"
  else if c = '\x09' then "\\t"
  else if c = '<' then "\\u003c"
  else if c = '>' then "\\u003e"
  else if c = '&' then "\\u0026"
  else if c.toNat < 32 then
    "\\u00" ++ String.singleton (hexDigit (c.toNat / 16)) ++
      String.singleton (hexDigit (c.toNat % 16))
  else String.singleton c

/-- Escaping of a whole string value. -/
def jsonEscapeString (s : String) : String :=
  String.join (s.toList.map jsonEscapeChar)

/-- Encoding of map[string]string with a single literal key, as produced by
json.NewEncoder(w).Encode (which appends a trailing newline). -/
def encodeStringField (key val : String) : String :=
  "\x7b\"" ++ key ++ "\":\"" ++ jsonEscapeString val ++ "\"\x7d\x0a"

/-! ## HTTP handler for /grpc-call (src/main.go lines 88-115) -/

/-- Embeds an HTTP response as the status code and body written to the
ResponseWriter. -/
structure HTTPResponse where
  status : Nat
  body : String
deriving DecidableEq, Repr

/-- Embeds Go's http.Error helper: writes the message plus a newline with the
given status code. -/
def httpError (msg : String) (code : Nat) : HTTPResponse :=
  { status := code, body := msg ++ "\x0a" }

/-- Embeds HTTPHandler.callGRPC. Parameters: ready is the value returned by
isGRPCClientReady; nameQuery is r.URL.Query().Get("name"), which yields the
empty string when the parameter is absent; sayHelloRPC is the loop-back
network call grpcClient.SayHello, which may fail with a transport error. -/
def callGRPC (ready : Bool) (nameQuery : String)
    (sayHelloRPC : HelloRequest → Except String HelloReply) : HTTPResponse :=
  if ready = false then
    httpError "gRPC client not ready" 503
  else
    let name := if nameQuery = "" then "World" else nameQuery
    match sayHelloRPC { name := name } with
    | Except.error e => httpError ("gRPC call failed: " ++ e) 500
    | Except.ok reply =>
        { status := 200, body := encodeStringField "grpc_response" reply.message }

/-! ## cmux matcher registration (src/main.go lines 159-165) -/

/-- Virtual listener a classified connection is delivered to. -/
inductive Protocol
  | grpc
  | http
deriving DecidableEq, Repr

/-- Abstract view of an incoming connection as seen by the cmux matchers:
whether it opens with a valid HTTP/2 client preface, and whether its HEADERS
carry content-type: application/grpc. -/
structure Conn where
  http2Preface : Bool
  headerContentTypeGrpc : Bool
deriving DecidableEq, Repr

/-- Embeds cmux.HTTP2MatchHeaderFieldSendSettings("content-type",
"application/grpc"): matches HTTP/2 connections whose headers carry the gRPC
content type. -/
def grpcMatcher (c : Conn) : Bool :=
  c.http2Preface && c.headerContentTypeGrpc

/-- Embeds cmux.Any(): the catch-all matcher, true for every connection. -/
def anyMatcher (_ : Conn) : Bool :=
  true

/-- Matcher sequence registered by UltraMultiplexer.Initialize: first the gRPC
matcher via MatchWithWriters, then the catch-all via Match(Any()). -/
def initMatchers : List ((Conn → Bool) × Protocol) :=
  [(grpcMatcher, Protocol.grpc), (anyMatcher, Protocol.http)]

/-- Embeds cmux's classification of one accepted connection: matchers are
evaluated in registration order, first match wins. -/
def route : List ((Conn → Bool) × Protocol) → Conn → Option Protocol
  | [], _ => none
  | (m, p) :: rest, c => if m c then some p else route rest c

/-! ## Startup orchestration (src/main.go lines 196-312)
Start calls startMux, then waitForServerReady (20 attempts, probing HTTP then
gRPC, sleeping one second after a failed attempt), then initGRPCClient. The
run is embedded as a result plus an event trace; the environment supplies the
outcome of each network probe and of the loop-back dial. -/

/-- Observable events of an orchestrator run and of Stop. sleepSecond stands
for time.Sleep(1 * time.Second). -/
inductive Event
  | startMuxCall
  | launchAcceptLoop
  | probeHTTP (attempt : Nat)
  | probeGRPC (attempt : Nat)
  | sleepSecond
  | dialClient
  | setGrpcConn
  | setGrpcClient
  | setServerReady
  | closeGrpcConn
  | closeHTTPServer
  | closeGRPCServer
  | closeListener
deriving DecidableEq, Repr

/-- Environment of a startup run: the result of checkHTTPReady and
checkGRPCReady at each readiness attempt, and whether the loop-back
grpc.DialContext in initGRPCClient succeeds. -/
structure Env where
  httpUp : Nat → Bool
  grpcUp : Nat → Bool
  dialOk : Bool

/-- Result of waitForServerReady from attempt index i with the given fuel
(the loop runs attempts 0..19, so fuel starts at 20): probe HTTP, on failure
sleep and retry the whole sequence; then probe gRPC, on failure sleep and
retry the whole sequence; return nil once both pass, and the error after the
budget is exhausted. -/
def waitResult (env : Env) : Nat → Nat → Except String Unit
  | _, 0 => Except.error "servers not ready after 20 attempts"
  | i, fuel + 1 =>
    if env.httpUp i = false then waitResult env (i + 1) fuel
    else if env.grpcUp i = false then waitResult env (i + 1) fuel
    else Except.ok ()

/-- Event trace of the same loop: each attempt emits its HTTP probe, its gRPC
probe when the HTTP probe passed, and a one-second sleep when the attempt
failed. -/
def waitTrace (env : Env) : Nat → Nat → List Event
  | _, 0 => []
  | i, fuel + 1 =>
    if env.httpUp i = false then
      Event.probeHTTP i :: Event.sleepSecond :: waitTrace env (i + 1) fuel
    else if env.grpcUp i = false then
      Event.probeHTTP i :: Event.probeGRPC i :: Event.sleepSecond :: waitTrace env (i + 1) fuel
    else
      [Event.probeHTTP i, Event.probeGRPC i]

/-- Embeds UltraMultiplexer.waitForServerReady: 20 attempts starting at 0. -/
def waitForServerReady (env : Env) : Except String Unit × List Event :=
  (waitResult env 0 20, waitTrace env 0 20)

/-- Embeds UltraMultiplexer.Start as called from main (muxStarted is false so
startMux launches the accept loop): startMux, then waitForServerReady — whose
error is wrapped and returned with no further action — then initGRPCClient
(dial, then set grpcConn, grpcClient and serverReady on success; the dial
error is wrapped, with the underlying error text abstracted as "dial error").
The blocking select at the end of the success path is outside this model. -/
def Start (env : Env) : Except String Unit × List Event :=
  match waitResult env 0 20 with
  | Except.error e =>
      (Except.error ("servers not ready: " ++ e),
        [Event.startMuxCall, Event.launchAcceptLoop] ++ waitTrace env 0 20)
  | Except.ok () =>
      if env.dialOk then
        (Except.ok (),
          [Event.startMuxCall, Event.launchAcceptLoop] ++ waitTrace env 0 20 ++
            [Event.dialClient, Event.setGrpcConn, Event.setGrpcClient, Event.setServerReady])
      else
        (Except.error "failed to initialize gRPC client: failed to connect gRPC client: dial error",
          [Event.startMuxCall, Event.launchAcceptLoop] ++ waitTrace env 0 20 ++
            [Event.dialClient])

/-- Classifier for events that can occur inside the readiness loop. -/
def isWaitEvent : Event → Bool
  | Event.probeHTTP _ => true
  | Event.probeGRPC _ => true
  | Event.sleepSecond => true
  | _ => false

/-- Classifier for the shutdown actions of Stop. -/
def isCloseEvent : Event → Bool
  | Event.closeGrpcConn => true
  | Event.closeHTTPServer => true
  | Event.closeGRPCServer => true
  | Event.closeListener => true
  | _ => false

/-- Classifier for the HTTP probe opening an attempt. -/
def isProbeHTTPEvent : Event → Bool
  | Event.probeHTTP _ => true
  | _ => false

/-- Classifier for the one-second sleeps. -/
def isSleepEvent : Event → Bool
  | Event.sleepSecond => true
  | _ => false

/-- Environment in which neither server ever answers its probe. -/
def envAllDown : Env :=
  { httpUp := fun _ => false, grpcUp := fun _ => false, dialOk := true }

/-- Environment in which both servers are up from the first attempt. -/
def envAllUp : Env :=
  { httpUp := fun _ => true, grpcUp := fun _ => true, dialOk := true }

/-- Environment in which HTTP is always up but gRPC answers only from the
second attempt on. -/
def envGrpcLate : Env :=
  { httpUp := fun _ => true, grpcUp := fun i => decide (0 < i), dialOk := true }

/-! ## Helper lemmas about the readiness loop -/

/-- Unfolding of one step of waitResult. -/
theorem waitResult_succ (env : Env) (i n : Nat) :
    waitResult env i (n + 1) =
      if env.httpUp i = false then waitResult env (i + 1) n
      else if env.grpcUp i = false then waitResult env (i + 1) n
      else Except.ok () := rfl

/-- Unfolding of one step of waitTrace. -/
theorem waitTrace_succ (env : Env) (i n : Nat) :
    waitTrace env i (n + 1) =
      if env.httpUp i = false then
        Event.probeHTTP i :: Event.sleepSecond :: waitTrace env (i + 1) n
      else if env.grpcUp i = false then
        Event.probeHTTP i :: Event.probeGRPC i :: Event.sleepSecond :: waitTrace env (i + 1) n
      else [Event.probeHTTP i, Event.probeGRPC i] := rfl

/-- Shifting a bounded existential by one when the first index fails. -/
theorem shift_exists_aux (P : Nat → Prop) (i n : Nat) (h0 : ¬ P i) :
    (∃ j, j < n ∧ P (i + 1 + j)) ↔ ∃ j, j < n + 1 ∧ P (i + j) := by
  constructor
  · rintro ⟨j, hj, hp⟩
    refine ⟨j + 1, by omega, ?_⟩
    have he : i + (j + 1) = i + 1 + j := by omega
    rw [he]; exact hp
  · rintro ⟨j, hj, hp⟩
    cases j with
    | zero => exact absurd (by simpa using hp) h0
    | succ k =>
      refine ⟨k, by omega, ?_⟩
      have he : i + 1 + k = i + (k + 1) := by omega
      rw [he]; exact hp

/-- Success characterisation of the readiness loop: it returns nil exactly when
some attempt within the budget finds both probes up. -/
theorem waitResult_ok_iff (env : Env) :
    ∀ fuel i, waitResult env i fuel = Except.ok () ↔
      ∃ j, j < fuel ∧ env.httpUp (i + j) = true ∧ env.grpcUp (i + j) = true := by
  intro fuel
  induction fuel with
  | zero => intro i; simp [waitResult]
  | succ n ih =>
    intro i
    by_cases hh : env.httpUp i = false
    · rw [waitResult_succ, if_pos hh, ih (i + 1)]
      exact shift_exists_aux (fun k => env.httpUp k = true ∧ env.grpcUp k = true) i n
        (fun hc => by
          have h1 : env.httpUp i = true := hc.1
          rw [hh] at h1
          exact Bool.false_ne_true h1)
    · have hh1 : env.httpUp i = true := by
        cases hv : env.httpUp i
        · exact absurd hv hh
        · rfl
      by_cases hg : env.grpcUp i = false
      · rw [waitResult_succ, if_neg hh, if_pos hg, ih (i + 1)]
        exact shift_exists_aux (fun k => env.httpUp k = true ∧ env.grpcUp k = true) i n
          (fun hc => by
            have h2 : env.grpcUp i = true := hc.2
            rw [hg] at h2
            exact Bool.false_ne_true h2)
      · have hg1 : env.grpcUp i = true := by
          cases hv : env.grpcUp i
          · exact absurd hv hg
          · rfl
        rw [waitResult_succ, if_neg hh, if_neg hg]
        exact iff_of_true rfl ⟨0, by omega, by simpa using hh1, by simpa using hg1⟩

/-- The readiness loop returns either nil or the fixed exhaustion error. -/
theorem waitResult_eq_or (env : Env) :
    ∀ fuel i, waitResult env i fuel = Except.ok () ∨
      waitResult env i fuel = Except.error "servers not ready after 20 attempts" := by
  intro fuel
  induction fuel with
  | zero => intro i; right; rfl
  | succ n ih =>
    intro i
    rw [waitResult_succ]
    by_cases hh : env.httpUp i = false
    · rw [if_pos hh]; exact ih (i + 1)
    · rw [if_neg hh]
      by_cases hg : env.grpcUp i = false
      · rw [if_pos hg]; exact ih (i + 1)
      · rw [if_neg hg]; left; rfl

/-- Events of the readiness loop are only HTTP probes, gRPC probes and sleeps. -/
theorem waitTrace_events (env : Env) :
    ∀ fuel i e, e ∈ waitTrace env i fuel → isWaitEvent e = true := by
  intro fuel
  induction fuel with
  | zero => intro i e he; simp [waitTrace] at he
  | succ n ih =>
    intro i e he
    rw [waitTrace_succ] at he
    by_cases hh : env.httpUp i = false
    · rw [if_pos hh] at he
      rcases List.mem_cons.mp he with rfl | he
      · rfl
      rcases List.mem_cons.mp he with rfl | he
      · rfl
      · exact ih (i + 1) e he
    · rw [if_neg hh] at he
      by_cases hg : env.grpcUp i = false
      · rw [if_pos hg] at he
        rcases List.mem_cons.mp he with rfl | he
        · rfl
        rcases List.mem_cons.mp he with rfl | he
        · rfl
        rcases List.mem_cons.mp he with rfl | he
        · rfl
        · exact ih (i + 1) e he
      · rw [if_neg hg] at he
        rcases List.mem_cons.mp he with rfl | he
        · rfl
        rcases List.mem_cons.mp he with rfl | he
        · rfl
        · simp at he

/-- Every non-empty readiness loop run opens with the HTTP probe of its first
attempt. -/
theorem waitTrace_head (env : Env) (i fuel : Nat) (h : 0 < fuel) :
    Event.probeHTTP i ∈ waitTrace env i fuel := by
  cases fuel with
  | zero => omega
  | succ n =>
    rw [waitTrace_succ]
    by_cases hh : env.httpUp i = false
    · rw [if_pos hh]; exact List.mem_cons_self _ _
    · rw [if_neg hh]
      by_cases hg : env.grpcUp i = false
      · rw [if_pos hg]; exact List.mem_cons_self _ _
      · rw [if_neg hg]; exact List.mem_cons_self _ _

/-- A gRPC probe happens at an attempt only when that attempt's HTTP probe
happened and succeeded: HTTP is probed first on each attempt. -/
theorem waitTrace_probeGRPC (env : Env) :
    ∀ fuel i j, Event.probeGRPC j ∈ waitTrace env i fuel →
      env.httpUp j = true ∧ Event.probeHTTP j ∈ waitTrace env i fuel := by
  intro fuel
  induction fuel with
  | zero => intro i j h; simp [waitTrace] at h
  | succ n ih =>
    intro i j h
    rw [waitTrace_succ] at h ⊢
    by_cases hh : env.httpUp i = false
    · rw [if_pos hh] at h ⊢
      rcases List.mem_cons.mp h with h1 | h
      · exact absurd h1 (by simp)
      rcases List.mem_cons.mp h with h1 | h
      · exact absurd h1 (by simp)
      obtain ⟨ha, hb⟩ := ih (i + 1) j h
      exact ⟨ha, List.mem_cons_of_mem _ (List.mem_cons_of_mem _ hb)⟩
    · rw [if_neg hh] at h ⊢
      by_cases hg : env.grpcUp i = false
      · rw [if_pos hg] at h ⊢
        rcases List.mem_cons.mp h with h1 | h
        · exact absurd h1 (by simp)
        rcases List.mem_cons.mp h with h1 | h
        · have hji : j = i := by simpa using h1
          subst hji
          have hh1 : env.httpUp j = true := by
            cases hv : env.httpUp j
            · exact absurd hv hh
            · rfl
          exact ⟨hh1, List.mem_cons_self _ _⟩
        rcases List.mem_cons.mp h with h1 | h
        · exact absurd h1 (by simp)
        obtain ⟨ha, hb⟩ := ih (i + 1) j h
        exact ⟨ha, List.mem_cons_of_mem _ (List.mem_cons_of_mem _ (List.mem_cons_of_mem _ hb))⟩
      · rw [if_neg hg] at h ⊢
        rcases List.mem_cons.mp h with h1 | h
        · exact absurd h1 (by simp)
        rcases List.mem_cons.mp h with h1 | h
        · have hji : j = i := by simpa using h1
          subst hji
          have hh1 : env.httpUp j = true := by
            cases hv : env.httpUp j
            · exact absurd hv hh
            · rfl
          exact ⟨hh1, List.mem_cons_self _ _⟩
        · simp at h

/-- After a failed attempt that is not the last one, the next attempt runs and
opens again with the HTTP probe: the whole sequence restarts rather than
resuming at the failed probe. -/
theorem waitTrace_restart (env : Env) :
    ∀ fuel i j, Event.probeHTTP j ∈ waitTrace env i fuel →
      ¬(env.httpUp j = true ∧ env.grpcUp j = true) →
      j + 1 < i + fuel →
      Event.probeHTTP (j + 1) ∈ waitTrace env i fuel := by
  intro fuel
  induction fuel with
  | zero => intro i j h _ _; simp [waitTrace] at h
  | succ n ih =>
    intro i j hmem hfail hlt
    rw [waitTrace_succ] at hmem ⊢
    by_cases hh : env.httpUp i = false
    · rw [if_pos hh] at hmem ⊢
      rcases List.mem_cons.mp hmem with h1 | hmem
      · have hji : j = i := by simpa using h1
        subst hji
        have hnext : Event.probeHTTP (j + 1) ∈ waitTrace env (j + 1) n :=
          waitTrace_head env (j + 1) n (by omega)
        exact List.mem_cons_of_mem _ (List.mem_cons_of_mem _ hnext)
      rcases List.mem_cons.mp hmem with h1 | hmem
      · exact absurd h1 (by simp)
      · have hnext := ih (i + 1) j hmem hfail (by omega)
        exact List.mem_cons_of_mem _ (List.mem_cons_of_mem _ hnext)
    · rw [if_neg hh] at hmem ⊢
      have hh1 : env.httpUp i = true := by
        cases hv : env.httpUp i
        · exact absurd hv hh
        · rfl
      by_cases hg : env.grpcUp i = false
      · rw [if_pos hg] at hmem ⊢
        rcases List.mem_cons.mp hmem with h1 | hmem
        · have hji : j = i := by simpa using h1
          subst hji
          have hnext : Event.probeHTTP (j + 1) ∈ waitTrace env (j + 1) n :=
            waitTrace_head env (j + 1) n (by omega)
          exact List.mem_cons_of_mem _ (List.mem_cons_of_mem _ (List.mem_cons_of_mem _ hnext))
        rcases List.mem_cons.mp hmem with h1 | hmem
        · exact absurd h1 (by simp)
        rcases List.mem_cons.mp hmem with h1 | hmem
        · exact absurd h1 (by simp)
        · have hnext := ih (i + 1) j hmem hfail (by omega)
          exact List.mem_cons_of_mem _ (List.mem_cons_of_mem _ (List.mem_cons_of_mem _ hnext))
      · have hg1 : env.grpcUp i = true := by
          cases hv : env.grpcUp i
          · exact absurd hv hg
          · rfl
        rw [if_neg hg] at hmem
        rcases List.mem_cons.mp hmem with h1 | hmem
        · have hji : j = i := by simpa using h1
          subst hji
          exact absurd ⟨hh1, hg1⟩ hfail
        rcases List.mem_cons.mp hmem with h1 | hmem
        · exact absurd h1 (by simp)
        · simp at hmem

/-- Bonus of one for the succeeding attempt, used to relate the number of
probes to the number of sleeps. -/
def okBonus : Except String Unit → Nat
  | Except.ok _ => 1
  | Except.error _ => 0

/-- Attempt counting: the loop makes at most fuel attempts, and each failed
attempt is followed by exactly one one-second sleep (so the number of HTTP
probes equals the number of sleeps, plus one on the succeeding attempt). -/
theorem waitTrace_counts (env : Env) :
    ∀ fuel i,
      List.countP isProbeHTTPEvent (waitTrace env i fuel) ≤ fuel ∧
      List.countP isProbeHTTPEvent (waitTrace env i fuel) =
        List.countP isSleepEvent (waitTrace env i fuel) +
          okBonus (waitResult env i fuel) := by
  intro fuel
  induction fuel with
  | zero => intro i; simp [waitTrace, waitResult, okBonus]
  | succ n ih =>
    intro i
    obtain ⟨ha, hb⟩ := ih (i + 1)
    rw [waitTrace_succ, waitResult_succ]
    by_cases hh : env.httpUp i = false
    · rw [if_pos hh, if_pos hh]
      constructor
      · simp only [List.countP_cons, isProbeHTTPEvent, isSleepEvent]
        simp
        omega
      · simp only [List.countP_cons, isProbeHTTPEvent, isSleepEvent]
        simp
        omega
    · rw [if_neg hh, if_neg hh]
      by_cases hg : env.grpcUp i = false
      · rw [if_pos hg, if_pos hg]
        constructor
        · simp only [List.countP_cons, isProbeHTTPEvent, isSleepEvent]
          simp
          omega
        · simp only [List.countP_cons, isProbeHTTPEvent, isSleepEvent]
          simp
          omega
      · rw [if_neg hg, if_neg hg]
        simp [List.countP_cons, isProbeHTTPEvent, isSleepEvent, okBonus]

/-! ## Step lemmas for Start -/

/-- Start when the readiness wait fails: the wrapped error is returned and the
trace contains nothing beyond startMux and the readiness probes. -/
theorem Start_error (env : Env) (e : String) (h : waitResult env 0 20 = Except.error e) :
    Start env = (Except.error ("servers not ready: " ++ e),
      [Event.startMuxCall, Event.launchAcceptLoop] ++ waitTrace env 0 20) := by
  simp [Start, h]

/-- Start when readiness is confirmed and the loop-back dial succeeds. -/
theorem Start_ok_dial (env : Env) (h : waitResult env 0 20 = Except.ok ())
    (hd : env.dialOk = true) :
    Start env = (Except.ok (),
      [Event.startMuxCall, Event.launchAcceptLoop] ++ waitTrace env 0 20 ++
        [Event.dialClient, Event.setGrpcConn, Event.setGrpcClient, Event.setServerReady]) := by
  simp [Start, h, hd]

/-- Start when readiness is confirmed but the loop-back dial fails. -/
theorem Start_ok_nodial (env : Env) (h : waitResult env 0 20 = Except.ok ())
    (hd : env.dialOk = false) :
    Start env =
      (Except.error "failed to initialize gRPC client: failed to connect gRPC client: dial error",
        [Event.startMuxCall, Event.launchAcceptLoop] ++ waitTrace env 0 20 ++
          [Event.dialClient]) := by
  simp [Start, h, hd]

/-- Nothing in the pre-dial part of a Start trace is a shutdown action, a dial,
or the serverReady write. -/
theorem start_prefix_events (env : Env) (e : Event)
    (he : e ∈ [Event.startMuxCall, Event.launchAcceptLoop] ++ waitTrace env 0 20) :
    isCloseEvent e = false ∧ e ≠ Event.dialClient ∧ e ≠ Event.setServerReady := by
  rcases List.mem_append.mp he with h1 | h2
  · rcases List.mem_cons.mp h1 with rfl | h1
    · exact ⟨rfl, by simp, by simp⟩
    rcases List.mem_cons.mp h1 with rfl | h1
    · exact ⟨rfl, by simp, by simp⟩
    · simp at h1
  · have hw := waitTrace_events env 20 0 e h2
    cases e <;> simp_all [isWaitEvent, isCloseEvent]

/-- Membership in a takeWhile result implies membership in the original list. -/
theorem mem_of_mem_takeWhileEv (p : Event → Bool) :
    ∀ (l : List Event) (x : Event), x ∈ List.takeWhile p l → x ∈ l := by
  intro l
  induction l with
  | nil => intro x h; simp [List.takeWhile] at h
  | cons a t ih =>
    intro x h
    rw [List.takeWhile_cons] at h
    by_cases hp : p a = true
    · rw [if_pos hp] at h
      rcases List.mem_cons.mp h with rfl | h
      · exact List.mem_cons_self _ _
      · exact List.mem_cons_of_mem _ (ih x h)
    · rw [if_neg hp] at h
      simp at h

/-- List.takeWhile over a block satisfying the predicate followed by a failing
element returns exactly the block. -/
theorem takeWhile_append_block (p : Event → Bool) :
    ∀ (A B : List Event) (x : Event), (∀ a ∈ A, p a = true) → p x = false →
      List.takeWhile p (A ++ x :: B) = A := by
  intro A
  induction A with
  | nil =>
    intro B x _ hx
    simp [List.takeWhile_cons, hx]
  | cons a t ih =>
    intro B x hall hx
    have ha : p a = true := hall a (List.mem_cons_self a t)
    simp [List.takeWhile_cons, ha, ih B x (fun b hb => hall b (List.mem_cons_of_mem a hb)) hx]

end UltraMux

namespace UltraMux

/-- C8: for every input string data, ProcessData succeeds (nil error) and
returns exactly the uppercase transformation of data. -/
theorem C8_process_data_uppercases (data : String) :
    ProcessData { data := data } = Except.ok { processed := stringsToUpper data } :=
  rfl

/-- C9: when the name query parameter is absent or empty (Query().Get returns
"" in both cases), callGRPC substitutes the default name "World", so its
behaviour agrees with an explicit name=World request, and a successful
loop-back call returns the Hello World JSON body. -/
theorem C9_default_name_world (rpc : HelloRequest → Except String HelloReply) :
    (∀ ready, callGRPC ready "" rpc = callGRPC ready "World" rpc) ∧
    callGRPC true "" SayHello =
      { status := 200,
        body := "\x7b\"grpc_response\":\"Hello World from Ultra Multiplexer!\"\x7d\x0a" } :=
  ⟨fun ready => by cases ready <;> rfl, by rfl⟩

/-- C1: the /grpc-call handler returns 503 when the loop-back gRPC client is
not ready; returns 500 when the client is ready but the gRPC call fails; and
otherwise returns 200 with body containing grpc_response = "Hello <name> from
Ultra Multiplexer!" where <name> is the name query parameter — in particular
name=Ann after full readiness yields the Hello Ann JSON body. -/
theorem C1_grpc_call_handler (nameQuery : String)
    (rpc : HelloRequest → Except String HelloReply) :
    callGRPC false nameQuery rpc = { status := 503, body := "gRPC client not ready\x0a" } ∧
    (∀ e, rpc { name := if nameQuery = "" then "World" else nameQuery } = Except.error e →
      callGRPC true nameQuery rpc =
        { status := 500, body := "gRPC call failed: " ++ e ++ "\x0a" }) ∧
    (∀ reply, rpc { name := if nameQuery = "" then "World" else nameQuery } = Except.ok reply →
      callGRPC true nameQuery rpc =
        { status := 200, body := encodeStringField "grpc_response" reply.message }) ∧
    (∀ n, SayHello { name := n } =
      Except.ok { message := "Hello " ++ n ++ " from Ultra Multiplexer!" }) ∧
    (nameQuery ≠ "" →
      callGRPC true nameQuery SayHello =
        { status := 200,
          body := encodeStringField "grpc_response"
            ("Hello " ++ nameQuery ++ " from Ultra Multiplexer!") }) ∧
    callGRPC true "Ann" SayHello =
      { status := 200,
        body := "\x7b\"grpc_response\":\"Hello Ann from Ultra Multiplexer!\"\x7d\x0a" } := by
  refine ⟨rfl, ?_, ?_, fun n => rfl, ?_, rfl⟩
  · intro e h
    simp [callGRPC, httpError, h]
  · intro reply h
    simp [callGRPC, h]
  · intro hne
    simp [callGRPC, SayHello, hne]

/-- C1 witness: concrete instantiations discharging the hypotheses of
C1_grpc_call_handler. -/
theorem C1_grpc_call_handler_witness :
    callGRPC false "Ann" SayHello = { status := 503, body := "gRPC client not ready\x0a" } ∧
    callGRPC true "Ann" (fun _ => Except.error "connection refused") =
      { status := 500, body := "gRPC call failed: connection refused\x0a" } ∧
    callGRPC true "Bob" SayHello =
      { status := 200,
        body := encodeStringField "grpc_response" "Hello Bob from Ultra Multiplexer!" } ∧
    callGRPC true "Bob" SayHello =
      { status := 200,
        body := "\x7b\"grpc_response\":\"Hello Bob from Ultra Multiplexer!\"\x7d\x0a" } :=
  ⟨(C1_grpc_call_handler "Ann" SayHello).1,
   (C1_grpc_call_handler "Ann" (fun _ => Except.error "connection refused")).2.1
     "connection refused" rfl,
   (C1_grpc_call_handler "Bob" SayHello).2.2.1
     { message := "Hello Bob from Ultra Multiplexer!" } rfl,
   (C1_grpc_call_handler "Bob" SayHello).2.2.2.2.1 (by decide)⟩

/-- C2: Initialize registers the gRPC-specific matcher first and the catch-all
matcher last, so a connection matching the gRPC matcher is routed to the gRPC
virtual listener and every other connection falls through to the HTTP one. -/
theorem C2_matcher_registration_order :
    initMatchers.head? = some (grpcMatcher, Protocol.grpc) ∧
    initMatchers.getLast? = some (anyMatcher, Protocol.http) ∧
    (∀ c, grpcMatcher c = true → route initMatchers c = some Protocol.grpc) ∧
    (∀ c, grpcMatcher c = false → route initMatchers c = some Protocol.http) := by
  refine ⟨rfl, rfl, ?_, ?_⟩ <;> intro c h <;> simp [route, initMatchers, h, anyMatcher]

/-- C2 witness: concrete connections routed through the registered matcher
sequence, discharging the hypotheses of C2_matcher_registration_order. -/
theorem C2_matcher_registration_order_witness :
    route initMatchers { http2Preface := true, headerContentTypeGrpc := true } =
      some Protocol.grpc ∧
    route initMatchers { http2Preface := true, headerContentTypeGrpc := false } =
      some Protocol.http :=
  ⟨C2_matcher_registration_order.2.2.1 _ rfl,
   C2_matcher_registration_order.2.2.2 _ rfl⟩

/-- C6: the readiness wait performs at most 20 attempts; it succeeds exactly
when some attempt within the budget finds both probes up; it fails with the
exhaustion error when no attempt does; on each attempt HTTP is probed first
and gRPC only after that attempt's HTTP probe succeeded; after a failed
attempt the whole sequence restarts with the next attempt's HTTP probe; and
each failed attempt is followed by exactly one one-second sleep (probe count =
sleep count + 1 on success, = sleep count on failure). -/
theorem C6_readiness_polling (env : Env) :
    ((waitForServerReady env).1 = Except.ok () ↔
      ∃ i, i < 20 ∧ env.httpUp i = true ∧ env.grpcUp i = true) ∧
    ((∀ i, i < 20 → ¬(env.httpUp i = true ∧ env.grpcUp i = true)) →
      (waitForServerReady env).1 = Except.error "servers not ready after 20 attempts") ∧
    List.countP isProbeHTTPEvent (waitForServerReady env).2 ≤ 20 ∧
    (∀ i, Event.probeGRPC i ∈ (waitForServerReady env).2 →
      env.httpUp i = true ∧ Event.probeHTTP i ∈ (waitForServerReady env).2) ∧
    (∀ i, Event.probeHTTP i ∈ (waitForServerReady env).2 →
      ¬(env.httpUp i = true ∧ env.grpcUp i = true) → i + 1 < 20 →
      Event.probeHTTP (i + 1) ∈ (waitForServerReady env).2) ∧
    List.countP isProbeHTTPEvent (waitForServerReady env).2 =
      List.countP isSleepEvent (waitForServerReady env).2 +
        okBonus (waitForServerReady env).1 := by
  have hiff : waitResult env 0 20 = Except.ok () ↔
      ∃ i, i < 20 ∧ env.httpUp i = true ∧ env.grpcUp i = true := by
    rw [waitResult_ok_iff env 20 0]
    constructor
    · rintro ⟨j, hj, h1, h2⟩
      exact ⟨j, hj, by simpa using h1, by simpa using h2⟩
    · rintro ⟨j, hj, h1, h2⟩
      exact ⟨j, hj, by simpa using h1, by simpa using h2⟩
  refine ⟨hiff, ?_, (waitTrace_counts env 20 0).1, ?_, ?_, (waitTrace_counts env 20 0).2⟩
  · intro hall
    rcases waitResult_eq_or env 20 0 with hok | herr
    · obtain ⟨j, hj, h1, h2⟩ := hiff.mp hok
      exact absurd ⟨h1, h2⟩ (hall j hj)
    · exact herr
  · intro i hmem
    exact waitTrace_probeGRPC env 20 0 i hmem
  · intro i hmem hfail hlt
    exact waitTrace_restart env 20 0 i hmem hfail (by omega)

/-- C6 witness: concrete environments exercising success, exhaustion, the
HTTP-before-gRPC ordering and the full restart after a failed gRPC probe. -/
theorem C6_readiness_polling_witness :
    (waitForServerReady envAllUp).1 = Except.ok () ∧
    (waitForServerReady envAllDown).1 = Except.error "servers not ready after 20 attempts" ∧
    (envGrpcLate.httpUp 0 = true ∧ Event.probeHTTP 0 ∈ (waitForServerReady envGrpcLate).2) ∧
    Event.probeHTTP 1 ∈ (waitForServerReady envGrpcLate).2 :=
  ⟨(C6_readiness_polling envAllUp).1.mpr ⟨0, by omega, rfl, rfl⟩,
   (C6_readiness_polling envAllDown).2.1
     (fun _ _ hc => Bool.false_ne_true hc.1),
   (C6_readiness_polling envGrpcLate).2.2.2.1 0 (by decide),
   (C6_readiness_polling envGrpcLate).2.2.2.2.1 0 (by decide) (by decide) (by omega)⟩

/-- C3 counterexample: in the concrete run where no probe ever succeeds, the
readiness polling exhausts its 20-attempt budget (20 HTTP probes, exhaustion
error), Start surfaces the wrapped not-ready error, yet its trace contains no
shutdown action at all — no component started so far is torn down. -/
theorem C3_counterexample_no_teardown :
    (waitForServerReady envAllDown).1 = Except.error "servers not ready after 20 attempts" ∧
    List.countP isProbeHTTPEvent (waitForServerReady envAllDown).2 = 20 ∧
    (Start envAllDown).1 = Except.error "servers not ready: servers not ready after 20 attempts" ∧
    List.filter isCloseEvent (Start envAllDown).2 = [] := by
  refine ⟨by decide, by decide, by decide, by decide⟩

/-- C3 (amended): in every run whose readiness polling exhausts the retry
budget, Start fails with the wrapped not-ready error, but performs no teardown
— no started component is shut down before the error is surfaced; the error is
simply returned to the caller. -/
theorem C3_not_ready_error_without_teardown (env : Env)
    (h : ∀ i, i < 20 → ¬(env.httpUp i = true ∧ env.grpcUp i = true)) :
    (Start env).1 = Except.error "servers not ready: servers not ready after 20 attempts" ∧
    ∀ e, e ∈ (Start env).2 → isCloseEvent e = false := by
  have herr : waitResult env 0 20 = Except.error "servers not ready after 20 attempts" := by
    rcases waitResult_eq_or env 20 0 with hok | herr
    · obtain ⟨j, hj, h1, h2⟩ := (waitResult_ok_iff env 20 0).mp hok
      exact absurd ⟨by simpa using h1, by simpa using h2⟩ (h j (by omega))
    · exact herr
  rw [Start_error env _ herr]
  refine ⟨rfl, ?_⟩
  intro e he
  exact (start_prefix_events env e he).1

/-- C3 witness: the amended statement applied to the environment in which no
probe ever succeeds. -/
theorem C3_not_ready_error_without_teardown_witness :
    (Start envAllDown).1 = Except.error "servers not ready: servers not ready after 20 attempts" ∧
    isCloseEvent Event.startMuxCall = false :=
  ⟨(C3_not_ready_error_without_teardown envAllDown
      (fun _ _ hc => Bool.false_ne_true hc.1)).1,
   (C3_not_ready_error_without_teardown envAllDown
      (fun _ _ hc => Bool.false_ne_true hc.1)).2 Event.startMuxCall (by decide)⟩

/-- C5: in every startup run the loop-back gRPC client is dialed only after
some readiness attempt found both probes up, and at every point of the trace
before the dial the serverReady flag — initialised to false by
NewUltraMultiplexer and set only by the setServerReady write of initGRPCClient
— has not yet been written, so isGRPCClientReady returns false and handlers
fail fast. -/
theorem C5_client_only_after_readiness (env : Env) :
    (Event.dialClient ∈ (Start env).2 →
      ∃ i, i < 20 ∧ env.httpUp i = true ∧ env.grpcUp i = true) ∧
    Event.setServerReady ∉
      List.takeWhile (fun e => e != Event.dialClient) (Start env).2 := by
  have hpre : ∀ e, e ∈ [Event.startMuxCall, Event.launchAcceptLoop] ++ waitTrace env 0 20 →
      (e != Event.dialClient) = true := by
    intro e he
    have hne := (start_prefix_events env e he).2.1
    simpa using hne
  have hnosrv : Event.setServerReady ∉
      [Event.startMuxCall, Event.launchAcceptLoop] ++ waitTrace env 0 20 := by
    intro hmem
    exact (start_prefix_events env _ hmem).2.2 rfl
  have hok_ex : waitResult env 0 20 = Except.ok () →
      ∃ i, i < 20 ∧ env.httpUp i = true ∧ env.grpcUp i = true := by
    intro hok
    obtain ⟨j, hj, h1, h2⟩ := (waitResult_ok_iff env 20 0).mp hok
    exact ⟨j, hj, by simpa using h1, by simpa using h2⟩
  rcases waitResult_eq_or env 20 0 with hok | herr
  · by_cases hd : env.dialOk = true
    · rw [Start_ok_dial env hok hd]
      constructor
      · intro _
        exact hok_ex hok
      · rw [takeWhile_append_block _ _ _ _ hpre (by simp)]
        exact hnosrv
    · have hd0 : env.dialOk = false := by
        cases hv : env.dialOk
        · rfl
        · exact absurd hv hd
      rw [Start_ok_nodial env hok hd0]
      constructor
      · intro _
        exact hok_ex hok
      · rw [takeWhile_append_block _ _ _ _ hpre (by simp)]
        exact hnosrv
  · rw [Start_error env _ herr]
    constructor
    · intro hmem
      have := hpre _ hmem
      simp at this
    · intro hmem
      have hsub := mem_of_mem_takeWhileEv _ _ _ hmem
      exact hnosrv hsub

/-- C5 witness: in the all-up environment the dial happens and the readiness
evidence is produced. -/
theorem C5_client_only_after_readiness_witness :
    ∃ i, i < 20 ∧ envAllUp.httpUp i = true ∧ envAllUp.grpcUp i = true :=
  (C5_client_only_after_readiness envAllUp).1 (by decide)

end UltraMux

namespace UltraMux

/-! ## Stop (src/main.go lines 314-335)
Stop takes the mutex and closes, each guarded by a nil check: the loop-back
client connection, the HTTP server, the gRPC server and the real listener,
then returns nil. Closing an already-closed component leaves it closed (the
returned errors of the underlying Close calls are ignored). -/

/-- Resource handles held by the UltraMultiplexer struct: none models a nil
field, some b models a non-nil handle whose open state is b. -/
structure Resources where
  grpcConn : Option Bool
  httpServer : Option Bool
  grpcServer : Option Bool
  listener : Option Bool
deriving DecidableEq, Repr

/-- Closing a handle: a nil handle stays nil, a non-nil handle becomes (or
stays) closed. -/
def closeHandle : Option Bool → Option Bool
  | none => none
  | some _ => some false

/-- Close calls issued by one Stop invocation, in source order, one per
non-nil field. -/
def stopEvents (r : Resources) : List Event :=
  (if r.grpcConn.isSome then [Event.closeGrpcConn] else []) ++
  (if r.httpServer.isSome then [Event.closeHTTPServer] else []) ++
  (if r.grpcServer.isSome then [Event.closeGRPCServer] else []) ++
  (if r.listener.isSome then [Event.closeListener] else [])

/-- Embeds UltraMultiplexer.Stop: the resulting resource state, the close
calls issued, and the returned error (always nil, modelled as none). -/
def Stop (r : Resources) : Resources × List Event × Option String :=
  ({ grpcConn := closeHandle r.grpcConn
     httpServer := closeHandle r.httpServer
     grpcServer := closeHandle r.grpcServer
     listener := closeHandle r.listener },
   stopEvents r, none)

/-! ## Readiness flags and startMux (src/main.go lines 141-211, 262-283)
The struct starts with serverReady = false and muxStarted = false
(NewUltraMultiplexer); startMux checks-and-sets muxStarted and launches the
cmux accept loop at most once; initGRPCClient sets serverReady on a
successful dial; Stop touches neither flag. -/

/-- Flag state of the UltraMultiplexer struct, plus a count of launched cmux
accept loops (go um.mux.Serve()). -/
structure Flags where
  muxStarted : Bool
  serverReady : Bool
  acceptLoops : Nat
deriving DecidableEq, Repr

/-- Embeds NewUltraMultiplexer's flag initialisation: both flags false, no
accept loop running. -/
def NewUltraMultiplexer : Flags :=
  { muxStarted := false, serverReady := false, acceptLoops := 0 }

/-- Embeds UltraMultiplexer.startMux: under the mutex, return immediately if
muxStarted is already set, otherwise set it and launch the accept loop. -/
def startMux (s : Flags) : Flags :=
  if s.muxStarted then s
  else { s with muxStarted := true, acceptLoops := s.acceptLoops + 1 }

/-- Operations of the program that run against the flag state: startMux,
initGRPCClient (parameterised by whether the dial succeeds) and Stop. -/
inductive Op
  | startMuxOp
  | initGRPCClientOp (dialOk : Bool)
  | stopOp
deriving DecidableEq, Repr

/-- Effect of each operation on the flags, read off the source: startMux as
above; initGRPCClient sets serverReady = true only after a successful dial;
Stop closes resources but writes neither flag. -/
def applyOp : Op → Flags → Flags
  | Op.startMuxOp, s => startMux s
  | Op.initGRPCClientOp dialOk, s =>
      if dialOk then { s with serverReady := true } else s
  | Op.stopOp, s => s

/-! ## Mutex discipline (src/main.go lines 196-211 and 262-289)
Action-level traces of the functions that touch the muxStarted and
serverReady flags, recording lock and unlock of the single sync.RWMutex um.mu
so that the lock state at each flag write can be checked. -/

/-- Atomic actions of startMux, initGRPCClient and isGRPCClientReady, at the
granularity of mutex operations, flag accesses and the surrounding calls. -/
inductive MuAction
  | lockMu
  | unlockMu
  | rlockMu
  | runlockMu
  | readMuxStarted
  | writeMuxStarted (v : Bool)
  | readServerReady
  | writeServerReady (v : Bool)
  | dialLoopback
  | setGrpcConnField
  | setGrpcClientField
  | goMuxServe
deriving DecidableEq, Repr

/-- Action trace of startMux (lines 196-211): mu.Lock; read muxStarted; if
already started unlock and return; else write muxStarted, unlock, launch the
accept loop. -/
def startMuxTrace (alreadyStarted : Bool) : List MuAction :=
  if alreadyStarted then
    [MuAction.lockMu, MuAction.readMuxStarted, MuAction.unlockMu]
  else
    [MuAction.lockMu, MuAction.readMuxStarted, MuAction.writeMuxStarted true,
     MuAction.unlockMu, MuAction.goMuxServe]

/-- Action trace of initGRPCClient (lines 262-283): dial the loop-back
connection; on failure return; on success assign grpcConn, grpcClient and
serverReady = true. No mutex operation occurs anywhere in the function. -/
def initGRPCClientTrace (dialOk : Bool) : List MuAction :=
  if dialOk then
    [MuAction.dialLoopback, MuAction.setGrpcConnField, MuAction.setGrpcClientField,
     MuAction.writeServerReady true]
  else
    [MuAction.dialLoopback]

/-- Action trace of isGRPCClientReady (lines 285-289): RLock, read
serverReady, RUnlock. -/
def isGRPCClientReadyTrace : List MuAction :=
  [MuAction.rlockMu, MuAction.readServerReady, MuAction.runlockMu]

/-- Checks a trace, threading the write-lock state: true exactly when every
write to muxStarted or serverReady occurs while the write lock is held. -/
def writesUnderLock : Bool → List MuAction → Bool
  | _, [] => true
  | _, MuAction.lockMu :: t => writesUnderLock true t
  | _, MuAction.unlockMu :: t => writesUnderLock false t
  | h, MuAction.writeMuxStarted _ :: t => h && writesUnderLock h t
  | h, MuAction.writeServerReady _ :: t => h && writesUnderLock h t
  | h, _ :: t => writesUnderLock h t

end UltraMux

namespace UltraMux

/-- C7: Stop closes, in source order, the loop-back gRPC client connection,
the HTTP server, the gRPC server and the real TCP listener; it always returns
nil; and it is idempotent — a second Stop leaves the state produced by the
first unchanged and returns the same nil result. -/
theorem C7_stop_order_and_idempotent (r : Resources) (b1 b2 b3 b4 : Bool) :
    (Stop { grpcConn := some b1, httpServer := some b2,
            grpcServer := some b3, listener := some b4 }).2.1 =
      [Event.closeGrpcConn, Event.closeHTTPServer,
       Event.closeGRPCServer, Event.closeListener] ∧
    (Stop r).2.2 = none ∧
    (Stop (Stop r).1).1 = (Stop r).1 ∧
    (Stop (Stop r).1).2.2 = (Stop r).2.2 := by
  refine ⟨rfl, rfl, ?_, rfl⟩
  cases r with
  | mk a b c d =>
    cases a <;> cases b <;> cases c <;> cases d <;> rfl

/-- C10: startMux is idempotent under the muxStarted flag — the first call on
a not-yet-started state sets muxStarted and launches exactly one accept loop,
every later call returns without launching another — and muxStarted is
monotone: no operation of the program resets it from true to false. -/
theorem C10_startMux_idempotent_monotone (s : Flags) (op : Op) :
    (s.muxStarted = false →
      (startMux s).muxStarted = true ∧ (startMux s).acceptLoops = s.acceptLoops + 1) ∧
    (s.muxStarted = true → startMux s = s) ∧
    startMux (startMux s) = startMux s ∧
    (startMux NewUltraMultiplexer).acceptLoops = 1 ∧
    (s.muxStarted = true → (applyOp op s).muxStarted = true) := by
  refine ⟨?_, ?_, ?_, rfl, ?_⟩
  · intro h
    simp [startMux, h]
  · intro h
    simp [startMux, h]
  · by_cases h : s.muxStarted = true
    · simp [startMux, h]
    · have h0 : s.muxStarted = false := by
        cases hv : s.muxStarted
        · rfl
        · exact absurd hv h
      simp [startMux, h0]
  · intro h
    cases op with
    | startMuxOp => simp [applyOp, startMux, h]
    | initGRPCClientOp dialOk =>
        cases dialOk <;> simp [applyOp, h]
    | stopOp => simpa [applyOp] using h

/-- C10 witness: the fresh state from NewUltraMultiplexer, started twice, and
monotonicity at a concrete started state. -/
theorem C10_startMux_idempotent_monotone_witness :
    ((startMux NewUltraMultiplexer).muxStarted = true ∧
      (startMux NewUltraMultiplexer).acceptLoops = NewUltraMultiplexer.acceptLoops + 1) ∧
    startMux (startMux NewUltraMultiplexer) = startMux NewUltraMultiplexer ∧
    (applyOp Op.stopOp (startMux NewUltraMultiplexer)).muxStarted = true :=
  ⟨(C10_startMux_idempotent_monotone NewUltraMultiplexer Op.stopOp).1 rfl,
   (C10_startMux_idempotent_monotone (startMux NewUltraMultiplexer) Op.stopOp).2.1 rfl,
   (C10_startMux_idempotent_monotone (startMux NewUltraMultiplexer) Op.stopOp).2.2.2.2 rfl⟩

/-- C4 (evaluated at the failing input): both flag writes of startMux do
happen under the mutex, but initGRPCClient on a successful dial performs its
write serverReady = true with the mutex not held — the claim that every
mutation of the readiness flags holds the guarding mutex is violated by the
code at src/main.go line 279. -/
theorem C4_serverReady_write_not_under_mutex :
    writesUnderLock false (startMuxTrace false) = true ∧
    writesUnderLock false (startMuxTrace true) = true ∧
    MuAction.writeServerReady true ∈ initGRPCClientTrace true ∧
    writesUnderLock false (initGRPCClientTrace true) = false := by
  refine ⟨rfl, rfl, by decide, rfl⟩

end UltraMux
